import Mathlib

/-!
Verification of the RecSim overview notebook (`recsim/colab/RecSim_Overview.ipynb`).

The notebook's executable Python content is:
  * a function `create_agent(sess, environment, eval_mode, summary_writer=None)`
    that bundles `environment.observation_space`, `environment.action_space`,
    `summary_writer` and `eval_mode` into a kwargs dict and calls
    `full_slate_q_agent.FullSlateQAgent(sess, **kwargs)`;
  * a straight-line top-level script:
      seed = 0
      np.random.seed(seed)
      env_config = {'num_candidates': 10, 'slate_size': 2,
                    'resample_documents': True, 'seed': seed}
      tmp_base_dir = '/tmp/recsim/'
      runner = runner_lib.TrainRunner(base_dir=tmp_base_dir,
          create_agent_fn=create_agent,
          env=interest_evolution.create_environment(env_config),
          episode_log_file="", max_training_steps=50, num_iterations=10)
      runner.run_experiment()
      runner = runner_lib.EvalRunner(base_dir=tmp_base_dir,
          create_agent_fn=create_agent,
          env=interest_evolution.create_environment(env_config),
          max_eval_episodes=5, test_mode=True)
      runner.run_experiment()

We give a deep embedding: Python values, expressions and statements, and a
small-step-style interpreter that records every call into the external RecSim
library as an `ExtCall` event.  External calls may fail; the outcomes of the
seven call sites of a run are modelled by an `Oracle` (`none` = the call
returns normally, `some e` = the call raises the exception message `e`).
Constructor-like external calls return fresh opaque object handles.
The `create_agent` function is additionally embedded shallowly.
-/

namespace RecSimOverview

/-- Python runtime values, as far as the notebook observes them.  A dict is
encoded as a spine of `dictCons` cells ending in `dictNil`, in insertion order
(so that the inductive is not nested and equality is derivable).  `objV k` is
an opaque object returned by an external constructor (identified by the fresh
handle `k`); `funcV n` is an external module or function named by its dotted
path (or a top-level function defined in the notebook); `methodV k n` is the
bound method `n` of object `k`; `attrObj fields` is an object exposing the
attributes `fields` (a dict spine); it models the `environment` argument of
`create_agent`. -/
inductive PyVal where
  | intV : Int → PyVal
  | boolV : Bool → PyVal
  | strV : String → PyVal
  | noneV : PyVal
  | dictNil : PyVal
  | dictCons : String → PyVal → PyVal → PyVal
  | objV : Nat → PyVal
  | funcV : String → PyVal
  | methodV : Nat → String → PyVal
  | attrObj : PyVal → PyVal
deriving DecidableEq, Repr

/-- Python expressions, restricted to the forms the notebook uses (plus dict
literals with arbitrary entries).  `call f args kwargs` is `f(args, k=v, ...)`;
`splatCall f args d` is `f(args, **d)`. -/
inductive Expr where
  | lit : PyVal → Expr
  | var : String → Expr
  | attr : Expr → String → Expr
  | dictLit : List (String × Expr) → Expr
  | call : Expr → List Expr → List (String × Expr) → Expr
  | splatCall : Expr → List Expr → Expr → Expr

/-- Python statements.  The grammar deliberately includes object mutation
(`setItem`), conditionals, loops and `try/except`, so that the notebook's
non-use of them is a meaningful statement about its syntax and semantics. -/
inductive Stmt where
  | assign : String → Expr → Stmt
  | exprStmt : Expr → Stmt
  | ret : Expr → Stmt
  | setItem : Expr → Expr → Expr → Stmt
  | ifStmt : Expr → List Stmt → List Stmt → Stmt
  | whileStmt : Expr → List Stmt → Stmt
  | tryExcept : List Stmt → List Stmt → Stmt

/-- One call into the external RecSim/NumPy library: the dotted callee name
(or bare method name together with the receiver's handle in `recv`), the
positional arguments and the keyword arguments in evaluation order. -/
structure ExtCall where
  callee : String
  recv : Option Nat
  args : List PyVal
  kwargs : List (String × PyVal)
deriving DecidableEq, Repr

/-- Interpreter state: the variable store, the trace of external calls made so
far, and the next fresh handle for objects returned by external constructors. -/
structure PyState where
  globals : List (String × PyVal)
  trace : List ExtCall
  nextHandle : Nat
deriving DecidableEq, Repr

/-- Outcomes of the external calls of one run of the script: field `oi` is the
outcome of the `i`-th external call (`none` = returns normally, `some e` = the
library raises exception `e`).  A full successful run makes seven calls. -/
structure Oracle where
  o0 : Option String
  o1 : Option String
  o2 : Option String
  o3 : Option String
  o4 : Option String
  o5 : Option String
  o6 : Option String

/-- Outcome chosen by the oracle for the `i`-th external call of a run. -/
def oracleGet (o : Oracle) : Nat → Option String
  | 0 => o.o0
  | 1 => o.o1
  | 2 => o.o2
  | 3 => o.o3
  | 4 => o.o4
  | 5 => o.o5
  | 6 => o.o6
  | _ => none

/-- The oracle of the normal run: every external call returns. -/
def okOracle : Oracle := ⟨none, none, none, none, none, none, none⟩

/-- Store lookup (`NameError` when absent is handled by the caller). -/
def lookupStr (x : String) : List (String × PyVal) → Option PyVal
  | [] => none
  | (y, v) :: rest => if y = x then some v else lookupStr x rest

/-- Bind `x` to `v`: overwrite the existing binding or append a new one. -/
def bindVar (x : String) (v : PyVal) : List (String × PyVal) → List (String × PyVal)
  | [] => [(x, v)]
  | (y, w) :: rest => if y = x then (y, v) :: rest else (y, w) :: bindVar x v rest

/-- Build a dict spine from an entry list, preserving order. -/
def dictOfList : List (String × PyVal) → PyVal
  | [] => .dictNil
  | (k, v) :: rest => .dictCons k v (dictOfList rest)

/-- The entry list of a dict spine (in insertion order); `none` on non-dicts. -/
def dictEntries : PyVal → Option (List (String × PyVal))
  | .dictNil => some []
  | .dictCons k v rest => (dictEntries rest).map (fun l => (k, v) :: l)
  | _ => none

/-- Look a key up in a dict spine. -/
def dictLookup (x : String) : PyVal → Option PyVal
  | .dictCons k v rest => if k = x then some v else dictLookup x rest
  | _ => none

/-- Update or append a key in a dict spine (Python `d[x] = v`). -/
def dictBind (x : String) (v : PyVal) : PyVal → PyVal
  | .dictNil => .dictCons x v .dictNil
  | .dictCons k w rest =>
    if k = x then .dictCons k v rest else .dictCons k w (dictBind x v rest)
  | other => other

/-- Python truthiness of a value. -/
def truthy : PyVal → Bool
  | .intV n => n != 0
  | .boolV b => b
  | .strV s => s != ""
  | .noneV => false
  | .dictNil => false
  | _ => true

/-- External callees that construct and return a new object; all other
external calls return `None`. -/
def constructorCallees : List String :=
  ["interest_evolution.create_environment", "runner_lib.TrainRunner",
   "runner_lib.EvalRunner", "full_slate_q_agent.FullSlateQAgent"]

/-- Perform one external library call: record it in the trace, consult the
oracle for the outcome, and on success return either a fresh object handle
(for constructor-like callees) or `None`. -/
def doExtCall (o : Oracle) (st : PyState) (callee : String) (recv : Option Nat)
    (args : List PyVal) (kwargs : List (String × PyVal)) :
    PyState × Except String PyVal :=
  let idx := st.trace.length
  let tr := st.trace ++ [ExtCall.mk callee recv args kwargs]
  match oracleGet o idx with
  | some e => (⟨st.globals, tr, st.nextHandle⟩, .error e)
  | none =>
    if constructorCallees.contains callee then
      (⟨st.globals, tr, st.nextHandle + 1⟩, .ok (.objV st.nextHandle))
    else
      (⟨st.globals, tr, st.nextHandle⟩, .ok .noneV)

/-- Attribute access `v.name`: on a module/function path it extends the dotted
path, on an external object it yields the bound method, on an attribute object
it looks the attribute up. -/
def getAttr (v : PyVal) (name : String) : Except String PyVal :=
  match v with
  | .funcV m => .ok (.funcV (m ++ "." ++ name))
  | .objV k => .ok (.methodV k name)
  | .attrObj fields =>
    match dictLookup name fields with
    | some w => .ok w
    | none => .error ("AttributeError: " ++ name)
  | _ => .error ("AttributeError: " ++ name)

/-- Evaluate an expression (fuel-indexed for termination; the script needs far
less fuel than we supply).  Returns the state threaded through any external
calls, and either the value or the propagated exception. -/
def evalExpr (o : Oracle) : Nat → PyState → Expr → PyState × Except String PyVal
  | 0, st, _ => (st, .error "out of fuel")
  | fuel + 1, st, e =>
    match e with
    | .lit v => (st, .ok v)
    | .var x =>
      match lookupStr x st.globals with
      | some v => (st, .ok v)
      | none => (st, .error ("NameError: " ++ x))
    | .attr b name =>
      match evalExpr o fuel st b with
      | (st1, .error err) => (st1, .error err)
      | (st1, .ok v) => (st1, getAttr v name)
    | .dictLit entries =>
      match entries.foldl
          (fun acc p =>
            match acc with
            | (st1, .error err) => (st1, .error err)
            | (st1, .ok vs) =>
              match evalExpr o fuel st1 p.2 with
              | (st2, .ok v) => (st2, .ok (vs ++ [(p.1, v)]))
              | (st2, .error err) => (st2, .error err))
          (st, Except.ok ([] : List (String × PyVal))) with
      | (st1, .ok vs) => (st1, .ok (dictOfList vs))
      | (st1, .error err) => (st1, .error err)
    | .call f args kws =>
      match evalExpr o fuel st f with
      | (st1, .error err) => (st1, .error err)
      | (st1, .ok fv) =>
        match args.foldl
            (fun acc a =>
              match acc with
              | (st2, .error err) => (st2, .error err)
              | (st2, .ok vs) =>
                match evalExpr o fuel st2 a with
                | (st3, .ok v) => (st3, .ok (vs ++ [v]))
                | (st3, .error err) => (st3, .error err))
            (st1, Except.ok ([] : List PyVal)) with
        | (st2, .error err) => (st2, .error err)
        | (st2, .ok argVs) =>
          match kws.foldl
              (fun acc p =>
                match acc with
                | (st3, .error err) => (st3, .error err)
                | (st3, .ok vs) =>
                  match evalExpr o fuel st3 p.2 with
                  | (st4, .ok v) => (st4, .ok (vs ++ [(p.1, v)]))
                  | (st4, .error err) => (st4, .error err))
              (st2, Except.ok ([] : List (String × PyVal))) with
          | (st3, .error err) => (st3, .error err)
          | (st3, .ok kwVs) =>
            match fv with
            | .funcV name => doExtCall o st3 name none argVs kwVs
            | .methodV k name => doExtCall o st3 name (some k) argVs kwVs
            | _ => (st3, .error "TypeError: object is not callable")
    | .splatCall f args d =>
      match evalExpr o fuel st f with
      | (st1, .error err) => (st1, .error err)
      | (st1, .ok fv) =>
        match args.foldl
            (fun acc a =>
              match acc with
              | (st2, .error err) => (st2, .error err)
              | (st2, .ok vs) =>
                match evalExpr o fuel st2 a with
                | (st3, .ok v) => (st3, .ok (vs ++ [v]))
                | (st3, .error err) => (st3, .error err))
            (st1, Except.ok ([] : List PyVal)) with
        | (st2, .error err) => (st2, .error err)
        | (st2, .ok argVs) =>
          match evalExpr o fuel st2 d with
          | (st3, .error err) => (st3, .error err)
          | (st3, .ok dv) =>
            match dictEntries dv with
            | some kwVs =>
              match fv with
              | .funcV name => doExtCall o st3 name none argVs kwVs
              | .methodV k name => doExtCall o st3 name (some k) argVs kwVs
              | _ => (st3, .error "TypeError: object is not callable")
            | none => (st3, .error "TypeError: argument after ** must be a mapping")

/-- Execute a statement list.  The result is `some v` when a `return v` was
executed (only meaningful inside a function body), `none` otherwise. -/
def execStmts (o : Oracle) : Nat → PyState → List Stmt → PyState × Except String (Option PyVal)
  | 0, st, _ => (st, .error "out of fuel")
  | _ + 1, st, [] => (st, .ok none)
  | fuel + 1, st, s :: rest =>
    match s with
    | .assign x e =>
      match evalExpr o fuel st e with
      | (st1, .error err) => (st1, .error err)
      | (st1, .ok v) =>
        execStmts o fuel ⟨bindVar x v st1.globals, st1.trace, st1.nextHandle⟩ rest
    | .exprStmt e =>
      match evalExpr o fuel st e with
      | (st1, .error err) => (st1, .error err)
      | (st1, .ok _) => execStmts o fuel st1 rest
    | .ret e =>
      match evalExpr o fuel st e with
      | (st1, .error err) => (st1, .error err)
      | (st1, .ok v) => (st1, .ok (some v))
    | .setItem tgt key val =>
      match tgt with
      | .var x =>
        match evalExpr o fuel st key with
        | (st1, .error err) => (st1, .error err)
        | (st1, .ok (.strV k)) =>
          match evalExpr o fuel st1 val with
          | (st2, .error err) => (st2, .error err)
          | (st2, .ok v) =>
            match lookupStr x st2.globals with
            | some (.dictCons k0 v0 r0) =>
              execStmts o fuel
                ⟨bindVar x (dictBind k v (.dictCons k0 v0 r0)) st2.globals,
                 st2.trace, st2.nextHandle⟩ rest
            | some .dictNil =>
              execStmts o fuel
                ⟨bindVar x (dictBind k v .dictNil) st2.globals,
                 st2.trace, st2.nextHandle⟩ rest
            | _ => (st2, .error "TypeError: object does not support item assignment")
        | (st1, .ok _) => (st1, .error "TypeError: unhashable key")
      | _ => (st, .error "unsupported assignment target")
    | .ifStmt c thenS elseS =>
      match evalExpr o fuel st c with
      | (st1, .error err) => (st1, .error err)
      | (st1, .ok v) =>
        match execStmts o fuel st1 (if truthy v then thenS else elseS) with
        | (st2, .error err) => (st2, .error err)
        | (st2, .ok (some r)) => (st2, .ok (some r))
        | (st2, .ok none) => execStmts o fuel st2 rest
    | .whileStmt c body =>
      match evalExpr o fuel st c with
      | (st1, .error err) => (st1, .error err)
      | (st1, .ok v) =>
        if truthy v then
          match execStmts o fuel st1 body with
          | (st2, .error err) => (st2, .error err)
          | (st2, .ok (some r)) => (st2, .ok (some r))
          | (st2, .ok none) => execStmts o fuel st2 (s :: rest)
        else execStmts o fuel st1 rest
    | .tryExcept body handler =>
      match execStmts o fuel st body with
      | (st1, .ok (some r)) => (st1, .ok (some r))
      | (st1, .ok none) => execStmts o fuel st1 rest
      | (st1, .error _) =>
        match execStmts o fuel st1 handler with
        | (st2, .error err) => (st2, .error err)
        | (st2, .ok (some r)) => (st2, .ok (some r))
        | (st2, .ok none) => execStmts o fuel st2 rest

/-! ## The notebook script, transcribed

The names bound before the script runs: the imports of the import cells
(`import numpy as np`, `import tensorflow as tf`,
`from recsim.environments import interest_evolution`,
`from recsim.agents import full_slate_q_agent`,
`from recsim.simulator import runner_lib`) and the `def create_agent` of the
agent cell, which binds the name `create_agent` to a function value. -/

/-- Global bindings in effect when the first script cell runs. -/
def initGlobals : List (String × PyVal) :=
  [("np", .funcV "np"),
   ("tf", .funcV "tf"),
   ("interest_evolution", .funcV "interest_evolution"),
   ("full_slate_q_agent", .funcV "full_slate_q_agent"),
   ("runner_lib", .funcV "runner_lib"),
   ("create_agent", .funcV "create_agent")]

/-- The top-level statements of the notebook's training/evaluation script
(cells 10, 12 and 14), transcribed one-for-one. -/
def scriptStmts : List Stmt :=
  [ .assign "seed" (.lit (.intV 0)),
    .exprStmt (.call (.attr (.attr (.var "np") "random") "seed") [.var "seed"] []),
    .assign "env_config" (.dictLit
      [("num_candidates", .lit (.intV 10)),
       ("slate_size", .lit (.intV 2)),
       ("resample_documents", .lit (.boolV true)),
       ("seed", .var "seed")]),
    .assign "tmp_base_dir" (.lit (.strV "/tmp/recsim/")),
    .assign "runner" (.call (.attr (.var "runner_lib") "TrainRunner") []
      [("base_dir", .var "tmp_base_dir"),
       ("create_agent_fn", .var "create_agent"),
       ("env", .call (.attr (.var "interest_evolution") "create_environment")
          [.var "env_config"] []),
       ("episode_log_file", .lit (.strV "")),
       ("max_training_steps", .lit (.intV 50)),
       ("num_iterations", .lit (.intV 10))]),
    .exprStmt (.call (.attr (.var "runner") "run_experiment") [] []),
    .assign "runner" (.call (.attr (.var "runner_lib") "EvalRunner") []
      [("base_dir", .var "tmp_base_dir"),
       ("create_agent_fn", .var "create_agent"),
       ("env", .call (.attr (.var "interest_evolution") "create_environment")
          [.var "env_config"] []),
       ("max_eval_episodes", .lit (.intV 5)),
       ("test_mode", .lit (.boolV true))]),
    .exprStmt (.call (.attr (.var "runner") "run_experiment") [] []) ]

/-- The body of `def create_agent(sess, environment, eval_mode,
summary_writer=None)`, transcribed one-for-one. -/
def createAgentBody : List Stmt :=
  [ .assign "kwargs" (.dictLit
      [("observation_space", .attr (.var "environment") "observation_space"),
       ("action_space", .attr (.var "environment") "action_space"),
       ("summary_writer", .var "summary_writer"),
       ("eval_mode", .var "eval_mode")]),
    .ret (.splatCall (.attr (.var "full_slate_q_agent") "FullSlateQAgent")
      [.var "sess"] (.var "kwargs")) ]

/-- Local frame of a call `create_agent(sessV, env, emV, swV)` where the
environment object carries the attributes `observation_space = obsV` and
`action_space = actV` followed by any further attributes `restV` (a dict
spine), together with the module binding the body's free name
`full_slate_q_agent`. -/
def createAgentLocals (sessV obsV actV emV swV restV : PyVal) :
    List (String × PyVal) :=
  [("sess", sessV),
   ("environment", .attrObj (.dictCons "observation_space" obsV
      (.dictCons "action_space" actV restV))),
   ("eval_mode", emV),
   ("summary_writer", swV),
   ("full_slate_q_agent", .funcV "full_slate_q_agent")]

/-- Run the body of `create_agent` in the given local frame. -/
def runCreateAgent (o : Oracle) (locals : List (String × PyVal)) :
    PyState × Except String (Option PyVal) :=
  execStmts o 32 ⟨locals, [], 0⟩ createAgentBody

/-- Run the notebook script from the post-import state. -/
def runScript (o : Oracle) : PyState × Except String (Option PyVal) :=
  execStmts o 64 ⟨initGlobals, [], 0⟩ scriptStmts

/-- The value the script binds to `env_config`. -/
def envConfigVal : PyVal :=
  .dictCons "num_candidates" (.intV 10)
    (.dictCons "slate_size" (.intV 2)
      (.dictCons "resample_documents" (.boolV true)
        (.dictCons "seed" (.intV 0) .dictNil)))

/-- The external call trace of the normal (no-failure) run, in order. -/
def fullTrace : List ExtCall :=
  [ ⟨"np.random.seed", none, [.intV 0], []⟩,
    ⟨"interest_evolution.create_environment", none, [envConfigVal], []⟩,
    ⟨"runner_lib.TrainRunner", none, [],
      [("base_dir", .strV "/tmp/recsim/"),
       ("create_agent_fn", .funcV "create_agent"),
       ("env", .objV 0),
       ("episode_log_file", .strV ""),
       ("max_training_steps", .intV 50),
       ("num_iterations", .intV 10)]⟩,
    ⟨"run_experiment", some 1, [], []⟩,
    ⟨"interest_evolution.create_environment", none, [envConfigVal], []⟩,
    ⟨"runner_lib.EvalRunner", none, [],
      [("base_dir", .strV "/tmp/recsim/"),
       ("create_agent_fn", .funcV "create_agent"),
       ("env", .objV 2),
       ("max_eval_episodes", .intV 5),
       ("test_mode", .boolV true)]⟩,
    ⟨"run_experiment", some 3, [], []⟩ ]

/-! ## Shallow embedding of `create_agent`

`create_agent(sess, environment, eval_mode, summary_writer=None)` only reads
the two attributes `observation_space` and `action_space` of its environment
argument, bundles them with `summary_writer` and `eval_mode`, and calls the
external constructor `full_slate_q_agent.FullSlateQAgent(sess, **kwargs)`.
The constructor is a parameter of the embedding (it lives in the external
library); an environment is anything exposing the two spaces plus arbitrary
further data `extra`. -/

/-- An environment as `create_agent` sees it: the two Gym spaces plus whatever
else the object carries (which `create_agent` must not depend on). -/
structure PyEnv (Obs Act X : Type) where
  observation_space : Obs
  action_space : Act
  extra : X

/-- The keyword bundle `create_agent` builds: exactly the four keywords
`observation_space`, `action_space`, `summary_writer`, `eval_mode`. -/
structure AgentKwargs (Obs Act SW : Type) where
  observation_space : Obs
  action_space : Act
  summary_writer : Option SW
  eval_mode : Bool

/-- Shallow embedding of the notebook's `create_agent`, parameterised by the
external constructor `FullSlateQAgent`. -/
def create_agent {Sess Obs Act X SW R : Type}
    (fullSlateQAgent : Sess → AgentKwargs Obs Act SW → R)
    (sess : Sess) (environment : PyEnv Obs Act X)
    (eval_mode : Bool) (summary_writer : Option SW) : R :=
  fullSlateQAgent sess
    ⟨environment.observation_space, environment.action_space,
     summary_writer, eval_mode⟩

/-- `create_agent` called without its optional argument: Python supplies the
default `summary_writer=None`. -/
def create_agent_default {Sess Obs Act X SW R : Type}
    (fullSlateQAgent : Sess → AgentKwargs Obs Act SW → R)
    (sess : Sess) (environment : PyEnv Obs Act X) (eval_mode : Bool) : R :=
  create_agent fullSlateQAgent sess environment eval_mode none

/-! ## Syntactic predicates and trace observations -/

/-- A straight-line statement: a plain assignment or a bare expression
statement (no return, no item assignment, no conditional, loop or
`try`/`except`). -/
def isStraightLine : Stmt → Bool
  | .assign _ _ => true
  | .exprStmt _ => true
  | _ => false

/-- Statement forms of a straight-line function body (additionally allows
`return`). -/
def isSimpleBodyStmt : Stmt → Bool
  | .assign _ _ => true
  | .exprStmt _ => true
  | .ret _ => true
  | _ => false

/-- Whether a statement is a `try`/`except`. -/
def isTryStmt : Stmt → Bool
  | .tryExcept _ _ => true
  | _ => false

/-- Whether a statement can rebind or mutate the variable `x`.  Plain
assignments to another name and bare expression statements cannot; every
other statement form (item assignment, conditionals, loops, `try`) is
conservatively counted as a possible write. -/
def mayWriteVar (x : String) : Stmt → Bool
  | .assign y _ => y == x
  | .exprStmt _ => false
  | _ => true

/-- The name a plain assignment binds, if the statement is one. -/
def assignTarget : Stmt → Option String
  | .assign x _ => some x
  | _ => none

/-- Keyword argument names of an external call, in evaluation order. -/
def kwargNames (c : ExtCall) : List String := c.kwargs.map Prod.fst

/-- Value passed for keyword `k` in an external call. -/
def kwLookup (c : ExtCall) (k : String) : Option PyVal := lookupStr k c.kwargs

/-- Every `interest_evolution.create_environment` call in `t` is exactly
`create_environment(env_config)`: the single positional argument is the
`env_config` dict as constructed, with no keywords and no receiver. -/
def envFactoryCallsOk (t : List ExtCall) : Bool :=
  t.all (fun c =>
    c.callee != "interest_evolution.create_environment" ||
      c == ⟨"interest_evolution.create_environment", none, [envConfigVal], []⟩)

/-- Number of environment-factory calls in a trace. -/
def envFactoryCallCount (t : List ExtCall) : Nat :=
  (t.filter (fun c => c.callee == "interest_evolution.create_environment")).length

/-- `t` is a prefix of the normal run's trace `fullTrace`. -/
def tracePrefixOfFull (t : List ExtCall) : Bool := t == fullTrace.take t.length

/-- Run only the first `n` statements of the script (used to observe the state
between the script's phases). -/
def runScriptUpto (o : Oracle) (n : Nat) : PyState × Except String (Option PyVal) :=
  execStmts o 64 ⟨initGlobals, [], 0⟩ (scriptStmts.take n)

/-- The single external call the body of `create_agent` makes:
`full_slate_q_agent.FullSlateQAgent(sess, observation_space=...,
action_space=..., summary_writer=..., eval_mode=...)`. -/
def agentCtorCallOf (sessV obsV actV emV swV : PyVal) : ExtCall :=
  ⟨"full_slate_q_agent.FullSlateQAgent", none, [sessV],
   [("observation_space", obsV), ("action_space", actV),
    ("summary_writer", swV), ("eval_mode", emV)]⟩

/-- The kwargs dict the body of `create_agent` binds locally. -/
def agentKwargsVal (obsV actV emV swV : PyVal) : PyVal :=
  .dictCons "observation_space" obsV
    (.dictCons "action_space" actV
      (.dictCons "summary_writer" swV
        (.dictCons "eval_mode" emV .dictNil)))

/-- Keys of a dict spine, in insertion order. -/
def dictKeys : PyVal → List String
  | .dictCons k _ rest => k :: dictKeys rest
  | _ => []

/-- A scalar Python value: an int, bool, string or `None` — no dict, no
object, nothing nested. -/
def isScalar : PyVal → Bool
  | .intV _ => true
  | .boolV _ => true
  | .strV _ => true
  | .noneV => true
  | _ => false

/-- All values of a dict spine are scalars (so the dict is flat). -/
def dictValuesScalar : PyVal → Bool
  | .dictCons _ v rest => isScalar v && dictValuesScalar rest
  | .dictNil => true
  | _ => false

/-! ## Claim theorems -/

/-- C1: In every run of the notebook script (whatever outcomes the external
library produces), every call of `interest_evolution.create_environment`
receives exactly the `env_config` dict as constructed (same keys, same
values) and nothing else; the normal run makes exactly two such calls (one
for the `TrainRunner`, one for the `EvalRunner`); and no statement after the
construction of `env_config` rebinds or mutates `env_config`. -/
theorem c1_env_config_passed_unchanged :
    (∀ o : Oracle, envFactoryCallsOk (runScript o).1.trace = true) ∧
    envFactoryCallCount (runScript okOracle).1.trace = 2 ∧
    (scriptStmts.drop 3).all (fun s => !mayWriteVar "env_config" s) = true := by
  refine ⟨?_, rfl, rfl⟩
  intro o
  obtain ⟨o0, o1, o2, o3, o4, o5, o6⟩ := o
  cases o0 <;> cases o1 <;> cases o2 <;> cases o3 <;> cases o4 <;> cases o5 <;>
    cases o6 <;> rfl

/-- C2: `create_agent` passes `sess` positionally together with exactly the
four keywords `observation_space = environment.observation_space`,
`action_space = environment.action_space`, `summary_writer` and `eval_mode`
unchanged to the `FullSlateQAgent` constructor and returns its result; when
`summary_writer` is omitted the constructor receives `summary_writer = None`. -/
theorem c2_create_agent_passthrough :
    (∀ {Sess Obs Act X SW R : Type}
        (ctor : Sess → AgentKwargs Obs Act SW → R) (sess : Sess)
        (environment : PyEnv Obs Act X) (em : Bool) (sw : Option SW),
      create_agent ctor sess environment em sw =
        ctor sess ⟨environment.observation_space, environment.action_space,
                   sw, em⟩) ∧
    (∀ {Sess Obs Act X SW R : Type}
        (ctor : Sess → AgentKwargs Obs Act SW → R) (sess : Sess)
        (environment : PyEnv Obs Act X) (em : Bool),
      create_agent_default ctor sess environment em =
        ctor sess ⟨environment.observation_space, environment.action_space,
                   none, em⟩) :=
  ⟨fun _ _ _ _ _ => rfl, fun _ _ _ _ => rfl⟩

/-- C3: The script constructs the training runner with exactly the keyword
arguments `base_dir`, `create_agent_fn`, `env`, `episode_log_file`,
`max_training_steps`, `num_iterations` (and no positional arguments), the
evaluation runner with exactly `base_dir`, `create_agent_fn`, `env`,
`max_eval_episodes`, `test_mode`, and invokes `run_experiment()` on each
constructed runner: the receiver of the call at trace index 3 (resp. 6) is
the object the `TrainRunner` (resp. `EvalRunner`) constructor returned, as
bound to `runner` after the corresponding statement. -/
theorem c3_runner_contracts :
    (runScript okOracle).1.trace = fullTrace ∧
    fullTrace[2]?.map kwargNames =
      some ["base_dir", "create_agent_fn", "env", "episode_log_file",
            "max_training_steps", "num_iterations"] ∧
    fullTrace[2]?.map ExtCall.args = some [] ∧
    fullTrace[5]?.map kwargNames =
      some ["base_dir", "create_agent_fn", "env", "max_eval_episodes",
            "test_mode"] ∧
    fullTrace[5]?.map ExtCall.args = some [] ∧
    lookupStr "runner" (runScriptUpto okOracle 5).1.globals = some (.objV 1) ∧
    fullTrace[3]? = some ⟨"run_experiment", some 1, [], []⟩ ∧
    lookupStr "runner" (runScriptUpto okOracle 7).1.globals = some (.objV 3) ∧
    fullTrace[6]? = some ⟨"run_experiment", some 3, [], []⟩ :=
  ⟨rfl, rfl, rfl, rfl, rfl, rfl, rfl, rfl, rfl⟩

/-- C4: The `env_config` dictionary the script builds (and still holds at the
end of the run) is a flat mapping whose keys are exactly `num_candidates`,
`slate_size`, `resample_documents` and `seed`, bound to the scalar values
`10`, `2`, `True` and `0` respectively, with no nested structure. -/
theorem c4_env_config_flat_scalar :
    lookupStr "env_config" (runScript okOracle).1.globals = some envConfigVal ∧
    dictKeys envConfigVal =
      ["num_candidates", "slate_size", "resample_documents", "seed"] ∧
    dictLookup "num_candidates" envConfigVal = some (.intV 10) ∧
    dictLookup "slate_size" envConfigVal = some (.intV 2) ∧
    dictLookup "resample_documents" envConfigVal = some (.boolV true) ∧
    dictLookup "seed" envConfigVal = some (.intV 0) ∧
    dictValuesScalar envConfigVal = true :=
  ⟨rfl, rfl, rfl, rfl, rfl, rfl, rfl⟩

/-- C5: The observable steps occur in exactly the claimed order: the normal
run's external-call trace is `np.random.seed`, then (training phase) the
environment factory, the `TrainRunner` constructor and its
`run_experiment()`, then (evaluation phase) the environment factory again,
the `EvalRunner` constructor and its `run_experiment()`; every run (whatever
the library outcomes) produces a prefix of this trace, so no run reorders
the steps; after the statement that builds `env_config` only the
`np.random.seed` call has happened (the dict is built before either factory
call), and the training `run_experiment()` has completed before the
evaluation runner is constructed (after statement 6 the trace is still the
four training-phase calls). -/
theorem c5_phase_order :
    (runScript okOracle).1.trace = fullTrace ∧
    fullTrace.map ExtCall.callee =
      ["np.random.seed", "interest_evolution.create_environment",
       "runner_lib.TrainRunner", "run_experiment",
       "interest_evolution.create_environment", "runner_lib.EvalRunner",
       "run_experiment"] ∧
    (∀ o : Oracle, tracePrefixOfFull (runScript o).1.trace = true) ∧
    lookupStr "env_config" (runScriptUpto okOracle 3).1.globals =
      some envConfigVal ∧
    (runScriptUpto okOracle 3).1.trace = fullTrace.take 1 ∧
    (runScriptUpto okOracle 5).1.trace = fullTrace.take 3 ∧
    (runScriptUpto okOracle 6).1.trace = fullTrace.take 4 ∧
    (runScriptUpto okOracle 7).1.trace = fullTrace.take 6 := by
  refine ⟨rfl, rfl, ?_, rfl, rfl, rfl, rfl, rfl⟩
  intro o
  obtain ⟨o0, o1, o2, o3, o4, o5, o6⟩ := o
  cases o0 <;> cases o1 <;> cases o2 <;> cases o3 <;> cases o4 <;> cases o5 <;>
    cases o6 <;> rfl

/-- C6: Neither the script nor `create_agent` catches, transforms or
suppresses any exception: if the `i`-th external call of a run raises `e`
(the earlier calls returning normally), the whole run fails with exactly
that `e`; if the `FullSlateQAgent` constructor fails with `e` then
`create_agent` fails with exactly that `e`; and syntactically neither the
script nor the body of `create_agent` contains a `try`/`except`. -/
theorem c6_errors_propagate :
    (∀ (o : Oracle) (e : String) (i : Nat), i < 7 → oracleGet o i = some e →
      (∀ j, j < i → oracleGet o j = none) →
      (runScript o).2 = Except.error e) ∧
    (∀ {Sess Obs Act X SW A : Type}
        (ctor : Sess → AgentKwargs Obs Act SW → Except String A) (sess : Sess)
        (env : PyEnv Obs Act X) (em : Bool) (sw : Option SW) (e : String),
      ctor sess ⟨env.observation_space, env.action_space, sw, em⟩ =
          Except.error e →
      create_agent ctor sess env em sw = Except.error e) ∧
    scriptStmts.all (fun s => !isTryStmt s) = true ∧
    createAgentBody.all (fun s => !isTryStmt s) = true := by
  refine ⟨?_, ?_, rfl, rfl⟩
  · intro o e i hi hsome hnone
    obtain ⟨o0, o1, o2, o3, o4, o5, o6⟩ := o
    interval_cases i
    · dsimp only [oracleGet] at hsome
      subst hsome
      rfl
    · have h0 := hnone 0 (by norm_num)
      dsimp only [oracleGet] at hsome h0
      subst hsome; subst h0
      rfl
    · have h0 := hnone 0 (by norm_num)
      have h1 := hnone 1 (by norm_num)
      dsimp only [oracleGet] at hsome h0 h1
      subst hsome; subst h0; subst h1
      rfl
    · have h0 := hnone 0 (by norm_num)
      have h1 := hnone 1 (by norm_num)
      have h2 := hnone 2 (by norm_num)
      dsimp only [oracleGet] at hsome h0 h1 h2
      subst hsome; subst h0; subst h1; subst h2
      rfl
    · have h0 := hnone 0 (by norm_num)
      have h1 := hnone 1 (by norm_num)
      have h2 := hnone 2 (by norm_num)
      have h3 := hnone 3 (by norm_num)
      dsimp only [oracleGet] at hsome h0 h1 h2 h3
      subst hsome; subst h0; subst h1; subst h2; subst h3
      rfl
    · have h0 := hnone 0 (by norm_num)
      have h1 := hnone 1 (by norm_num)
      have h2 := hnone 2 (by norm_num)
      have h3 := hnone 3 (by norm_num)
      have h4 := hnone 4 (by norm_num)
      dsimp only [oracleGet] at hsome h0 h1 h2 h3 h4
      subst hsome; subst h0; subst h1; subst h2; subst h3; subst h4
      rfl
    · have h0 := hnone 0 (by norm_num)
      have h1 := hnone 1 (by norm_num)
      have h2 := hnone 2 (by norm_num)
      have h3 := hnone 3 (by norm_num)
      have h4 := hnone 4 (by norm_num)
      have h5 := hnone 5 (by norm_num)
      dsimp only [oracleGet] at hsome h0 h1 h2 h3 h4 h5
      subst hsome; subst h0; subst h1; subst h2; subst h3; subst h4; subst h5
      rfl
  · intro Sess Obs Act X SW A ctor sess env em sw e h
    exact h

/-- Witness for C6: a run whose third external call (the `TrainRunner`
constructor) raises `ValueError` fails with exactly that error. -/
theorem c6_errors_propagate_witness :
    (runScript ⟨none, none, some "ValueError", none, none, none, none⟩).2 =
      Except.error "ValueError" :=
  c6_errors_propagate.1 ⟨none, none, some "ValueError", none, none, none, none⟩
    "ValueError" 2 (by norm_num) rfl
    (by intro j hj; interval_cases j <;> rfl)

/-- C7: `create_agent` is a pure, stateless, branch-free adapter: running its
body on any argument values (the result depending on nothing but the four
parameters) always issues exactly one external call — the `FullSlateQAgent`
constructor with `sess` positional and the four-keyword bundle — returns that
constructor's result, adds only the local `kwargs` binding to its frame, and
its body consists solely of one assignment and one return (no conditional,
loop, mutation or `try`). -/
theorem c7_create_agent_pure_adapter :
    (∀ sessV obsV actV emV swV restV : PyVal,
      (runCreateAgent okOracle
          (createAgentLocals sessV obsV actV emV swV restV)).1.trace =
        [agentCtorCallOf sessV obsV actV emV swV] ∧
      (runCreateAgent okOracle
          (createAgentLocals sessV obsV actV emV swV restV)).2 =
        Except.ok (some (.objV 0)) ∧
      (runCreateAgent okOracle
          (createAgentLocals sessV obsV actV emV swV restV)).1.globals =
        createAgentLocals sessV obsV actV emV swV restV ++
          [("kwargs", agentKwargsVal obsV actV emV swV)]) ∧
    createAgentBody.all isSimpleBodyStmt = true ∧
    createAgentBody.length = 2 :=
  ⟨fun _ _ _ _ _ _ => ⟨rfl, rfl, rfl⟩, rfl, rfl⟩

/-- C8: The script is straight-line glue: every statement is a plain
assignment or a bare call expression (no conditionals, loops, `try`, item or
attribute mutation); its only store effects are bindings of the names
`seed`, `env_config`, `tmp_base_dir` and `runner` (the latter bound twice),
leaving every import binding unchanged; and its only other effects are the
seven external library calls of the trace. -/
theorem c8_straight_line_no_own_state :
    scriptStmts.all isStraightLine = true ∧
    scriptStmts.filterMap assignTarget =
      ["seed", "env_config", "tmp_base_dir", "runner", "runner"] ∧
    (runScript okOracle).1.globals =
      initGlobals ++
        [("seed", .intV 0), ("env_config", envConfigVal),
         ("tmp_base_dir", .strV "/tmp/recsim/"), ("runner", .objV 3)] ∧
    (runScript okOracle).1.trace = fullTrace ∧
    (runScript okOracle).2 = Except.ok none :=
  ⟨rfl, rfl, rfl, rfl, rfl⟩

/-- C9: `create_agent` depends on its environment argument only through the
`observation_space` and `action_space` attributes: two environments agreeing
on those two attributes (shallowly: whatever their other data, even of
different types; deeply: whatever further attributes the environment object
carries) give identical constructor calls and identical results. -/
theorem c9_env_noninterference :
    (∀ {Sess Obs Act X Y SW R : Type}
        (ctor : Sess → AgentKwargs Obs Act SW → R) (sess : Sess)
        (e1 : PyEnv Obs Act X) (e2 : PyEnv Obs Act Y) (em : Bool)
        (sw : Option SW),
      e1.observation_space = e2.observation_space →
      e1.action_space = e2.action_space →
      create_agent ctor sess e1 em sw = create_agent ctor sess e2 em sw) ∧
    (∀ sessV obsV actV emV swV restV restV' : PyVal,
      (runCreateAgent okOracle
          (createAgentLocals sessV obsV actV emV swV restV)).1.trace =
        (runCreateAgent okOracle
          (createAgentLocals sessV obsV actV emV swV restV')).1.trace) := by
  constructor
  · intro Sess Obs Act X Y SW R ctor sess e1 e2 em sw h1 h2
    unfold create_agent
    rw [h1, h2]
  · intro sessV obsV actV emV swV restV restV'
    rfl

/-- Witness for C9: two environments with equal spaces but different extra
data (of different types) produce the same constructor call. -/
theorem c9_env_noninterference_witness :
    create_agent (fun (s : Nat) (k : AgentKwargs Nat Nat Nat) => (s, k)) 7
        (⟨5, 6, "other data"⟩ : PyEnv Nat Nat String) true none =
      create_agent (fun (s : Nat) (k : AgentKwargs Nat Nat Nat) => (s, k)) 7
        (⟨5, 6, 42⟩ : PyEnv Nat Nat Nat) true none :=
  c9_env_noninterference.1 _ 7 ⟨5, 6, "other data"⟩ ⟨5, 6, 42⟩ true none rfl rfl

/-- C10: Both runner constructors receive the same `base_dir` value,
`'/tmp/recsim/'`, coming from the single binding of `tmp_base_dir` (so the
evaluation run operates over the directory the training run persisted into),
while each receives a freshly created environment from its own separate
`create_environment` call: the `env` passed to `TrainRunner` is the object
returned by the factory call at trace index 1 (handle 0) and the `env`
passed to `EvalRunner` is the distinct object returned by the factory call
at trace index 4 (handle 2). -/
theorem c10_shared_base_dir_fresh_env :
    (runScript okOracle).1.trace = fullTrace ∧
    fullTrace[2]?.bind (fun c => kwLookup c "base_dir") =
      some (.strV "/tmp/recsim/") ∧
    fullTrace[5]?.bind (fun c => kwLookup c "base_dir") =
      some (.strV "/tmp/recsim/") ∧
    (scriptStmts.filterMap assignTarget).count "tmp_base_dir" = 1 ∧
    lookupStr "tmp_base_dir" (runScript okOracle).1.globals =
      some (.strV "/tmp/recsim/") ∧
    fullTrace[1]? =
      some ⟨"interest_evolution.create_environment", none, [envConfigVal], []⟩ ∧
    fullTrace[4]? =
      some ⟨"interest_evolution.create_environment", none, [envConfigVal], []⟩ ∧
    fullTrace[2]?.bind (fun c => kwLookup c "env") = some (.objV 0) ∧
    fullTrace[5]?.bind (fun c => kwLookup c "env") = some (.objV 2) ∧
    PyVal.objV 0 ≠ PyVal.objV 2 := by
  refine ⟨rfl, rfl, rfl, rfl, rfl, rfl, rfl, rfl, rfl, ?_⟩
  decide

end RecSimOverview
